import Mathlib

/-!
Shallow embedding of `play_mod.c`, a small SDL2 tracker-module player.

The program consists of a global audio callback `fill_audio` guarded by two
global flags (`paused`, `stopped`), a start-up sequence in `main`
(library initialisation, a wait-for-drop loop, module load, audio start),
and a polling main loop that reacts to keyboard / drag-and-drop events and
draws one of two displays per frame.

External library calls (SDL, SDL_ttf, libxmp) are modelled by their observable
effect on the program: success/failure outcomes are inputs
(`InitOutcomes`, `ReloadEnv`), emitted library calls are recorded as
`Action`s, and drawing is recorded as a list of `DrawCmd`s.  The stream of
events returned by `SDL_WaitEvent` / `SDL_PollEvent` is a `List Event`;
for the blocking start-up loop (`while (SDL_WaitEvent(&event))`) the end of
the list models `SDL_WaitEvent` returning 0 (an error), which is the only
way its guard becomes false.
-/

namespace PlayMod

/-- An SDL colour as built by `SDL_Color {r,g,b,a}` / `SDL_MapRGB`. -/
structure Color where
  r : Nat
  g : Nat
  b : Nat
  a : Nat
deriving DecidableEq, Repr

/-- `SDL_Color white = {255, 255, 255, 0}` (line 169). -/
def white : Color := ⟨255, 255, 255, 0⟩

/-- `SDL_Color blue = {0, 128, 255, 0}` (line 170). -/
def blue : Color := ⟨0, 128, 255, 0⟩

/-- `SDL_Color yellow = {255, 255, 0, 0}` (line 171). -/
def yellow : Color := ⟨255, 255, 0, 0⟩

/-- `SDL_Color red = {255, 0, 0, 0}` (line 172). -/
def red : Color := ⟨255, 0, 0, 0⟩

/-- The four local colour constants of `main`, carried as state so that
theorems can say event handling leaves them unchanged. -/
structure UIConsts where
  white : Color
  blue : Color
  yellow : Color
  red : Color
deriving DecidableEq, Repr

/-- The colour constants as initialised at lines 169-172. -/
def initUI : UIConsts := ⟨white, blue, yellow, red⟩

/-- Keys the main loop distinguishes: SPACE, ESCAPE, `v`, anything else. -/
inductive SDLKey where
  | space
  | escape
  | vkey
  | otherKey
deriving DecidableEq, Repr

/-- SDL events the program distinguishes. -/
inductive Event where
  | quit
  | keydown (k : SDLKey)
  | dropfile (path : String)
  | otherEvent
deriving DecidableEq, Repr

/-- The two global flags shared between the audio callback and `main`
(lines 10-11). -/
structure SharedFlags where
  paused : Bool
  stopped : Bool
deriving DecidableEq, Repr

/-- What `fill_audio` leaves in the output buffer: `len` zero bytes
(`memset(stream, 0, len)`) or the decoder's output
(`xmp_play_buffer(udata, stream, len, 0)`). -/
inductive AudioOut where
  | silence (len : Nat)
  | decoded (udata : String) (len : Nat)
deriving DecidableEq, Repr

/-- The audio callback (lines 13-23).  It reads the two global flags and the
decoder context passed as `udata`; the returned flag component models the
final value of the globals, which the C function never assigns. -/
def fill_audio (flags : SharedFlags) (udata : String) (len : Nat) :
    AudioOut × SharedFlags :=
  if flags.stopped then (AudioOut.silence len, flags)
  else if !flags.paused then (AudioOut.decoded udata len, flags)
  else (AudioOut.silence len, flags)

/-- The fields of `struct xmp_module_info` the program reads
(through `mi.mod->…`). -/
structure ModInfo where
  name : String
  type : String
  chn : Int
  pat : Int
  ins : Int
  len : Int
deriving DecidableEq, Repr

/-- The per-channel part of `struct xmp_frame_info` the program reads. -/
structure ChannelInfo where
  note : Int
  instrument : Int
  volume : Int
deriving DecidableEq, Repr

/-- The fields of `struct xmp_frame_info` the program reads.  `channel_info`
is total, modelling the fixed-size array inside the xmp frame info. -/
structure FrameInfo where
  pattern : Int
  loop_count : Int
  channel_info : Nat → ChannelInfo

/-- The static `note_names` table (lines 292-302): "---", then twelve
note names for each octave 0-7, then "C-8". -/
def note_names : List String :=
  ["---", "C-0", "C#0", "D-0", "D#0", "E-0", "F-0", "F#0", "G-0", "G#0", "A-0", "A#0", "B-0",
   "C-1", "C#1", "D-1", "D#1", "E-1", "F-1", "F#1", "G-1", "G#1", "A-1", "A#1", "B-1",
   "C-2", "C#2", "D-2", "D#2", "E-2", "F-2", "F#2", "G-2", "G#2", "A-2", "A#2", "B-2",
   "C-3", "C#3", "D-3", "D#3", "E-3", "F-3", "F#3", "G-3", "G#3", "A-3", "A#3", "B-3",
   "C-4", "C#4", "D-4", "D#4", "E-4", "F-4", "F#4", "G-4", "G#4", "A-4", "A#4", "B-4",
   "C-5", "C#5", "D-5", "D#5", "E-5", "F-5", "F#5", "G-5", "G#5", "A-5", "A#5", "B-5",
   "C-6", "C#6", "D-6", "D#6", "E-6", "F-6", "F#6", "G-6", "G#6", "A-6", "A#6", "B-6",
   "C-7", "C#7", "D-7", "D#7", "E-7", "F-7", "F#7", "G-7", "G#7", "A-7", "A#7", "B-7",
   "C-8"]

/-- The note string chosen at line 307:
`(note > 0 && note < (int)(sizeof(note_names)/sizeof(note_names[0]))) ? note_names[note] : "---"`. -/
def noteStrOf (note : Int) : String :=
  if 0 < note ∧ note < (note_names.length : Int) then
    note_names.getD note.toNat "---"
  else "---"

/-- `%02d` formatting as used by `snprintf(info, …, "Ch%02d: %s Ins:%02d", …)`. -/
def pad02 (n : Int) : String :=
  if 0 ≤ n ∧ n < 10 then "0" ++ toString n else toString n

/-- `int max_channels = mi.mod->chn < 8 ? mi.mod->chn : 8` (line 303). -/
def maxChannelsInfo (chn : Int) : Int :=
  if chn < 8 then chn else 8

/-- One drawing operation of a frame: the full-surface clear
(`SDL_FillRect(screen, NULL, …)`), a `render_text` call, or a bar rectangle
(`SDL_FillRect(screen, &bar, …)`). -/
inductive DrawCmd where
  | clear
  | text (x y : Int) (s : String) (c : Color)
  | rect (x y w h : Int) (c : Color)
deriving DecidableEq, Repr

/-- One channel line of the info panel (lines 304-310). -/
def channelLine (ui : UIConsts) (fi : FrameInfo) (ch : Nat) : DrawCmd :=
  DrawCmd.text 300 (10 + (ch : Int) * 15)
    ("Ch" ++ pad02 ((ch : Int) + 1) ++ ": " ++ noteStrOf (fi.channel_info ch).note
      ++ " Ins:" ++ pad02 (fi.channel_info ch).instrument)
    ui.yellow

/-- The song-information panel (lines 246-310), in source order: six labelled
fields, two control lines, the playing pattern, the play/pause status, then
up to eight channel/note lines. -/
def infoPanelCmds (ui : UIConsts) (mi : ModInfo) (fi : FrameInfo) (paused : Bool) :
    List DrawCmd :=
  [DrawCmd.text 10 10 "Title:" ui.white,
   DrawCmd.text 60 10 (" " ++ mi.name) ui.blue,
   DrawCmd.text 10 30 "Type:" ui.white,
   DrawCmd.text 50 30 (" " ++ mi.type) ui.blue,
   DrawCmd.text 10 50 "Channels:" ui.white,
   DrawCmd.text 90 50 (" " ++ toString mi.chn) ui.blue,
   DrawCmd.text 10 70 "Patterns:" ui.white,
   DrawCmd.text 90 70 (" " ++ toString mi.pat) ui.blue,
   DrawCmd.text 10 90 "Instruments:" ui.white,
   DrawCmd.text 120 90 (" " ++ toString mi.ins) ui.blue,
   DrawCmd.text 10 110 "Length:" ui.white,
   DrawCmd.text 70 110 (" " ++ toString mi.len ++ " patterns") ui.blue,
   DrawCmd.text 10 140 "SPACE: Play/Pause" ui.white,
   DrawCmd.text 10 155 "ESC: Stop and exit   V: Visualizer" ui.white,
   DrawCmd.text 300 140 "Playing pattern:" ui.white,
   DrawCmd.text 428 140 (" " ++ toString fi.pattern) ui.red,
   DrawCmd.text 300 155 (if paused then "Paused" else "Playing") ui.white]
  ++ (List.range (maxChannelsInfo mi.chn).toNat).map (channelLine ui fi)

/-- `int bar_max_height = 110` (line 317). -/
def bar_max_height : Int := 110

/-- `int visualizer_width = 480 - 60` (line 316). -/
def visualizer_width : Int := 480 - 60

/-- `int base_x = 30` (line 317). -/
def base_x : Int := 30

/-- `int base_y = 10` (line 317). -/
def base_y : Int := 10

/-- `int spacing = 2` (line 318). -/
def spacing : Int := 2

/-- Lines 319-320: `bar_width = (visualizer_width - (max_channels-1)*spacing) / max_channels`,
clamped to a minimum of 2.  `Int.tdiv` is C's truncating division; the C
division is undefined behaviour for `chn = 0`, which this total model maps
to `Int.tdiv _ 0 = 0`, then clamps. -/
def barWidth (chn : Int) : Int :=
  let w := Int.tdiv (visualizer_width - (chn - 1) * spacing) chn
  if w < 2 then 2 else w

/-- `int bar_height = (vol * bar_max_height) / 64` (line 324). -/
def barHeight (vol : Int) : Int :=
  Int.tdiv (vol * bar_max_height) 64

/-- The colour of the bars, `SDL_MapRGB(screen->format, 255, 255, 0)` (line 331). -/
def barColor : Color := ⟨255, 255, 0, 0⟩

/-- One iteration of the visualizer loop (lines 322-342): the bar rectangle,
then the channel number just below the bar. -/
def visualizerBar (ui : UIConsts) (chn : Int) (fi : FrameInfo) (ch : Nat) :
    List DrawCmd :=
  let bw := barWidth chn
  let bh := barHeight (fi.channel_info ch).volume
  [DrawCmd.rect (base_x + (ch : Int) * (bw + spacing))
     (base_y + (bar_max_height - bh)) bw bh barColor,
   DrawCmd.text (base_x + (ch : Int) * (bw + spacing))
     (base_y + bar_max_height + 5) (toString ((ch : Int) + 1)) ui.white]

/-- The visualizer display (lines 311-356): one bar and one label per channel,
then the control lines, the playing pattern and the play/pause status. -/
def visualizerCmds (ui : UIConsts) (mi : ModInfo) (fi : FrameInfo) (paused : Bool) :
    List DrawCmd :=
  (List.range mi.chn.toNat).flatMap (visualizerBar ui mi.chn fi)
  ++ [DrawCmd.text 10 140 "SPACE: Play/Pause" ui.white,
      DrawCmd.text 10 155 "ESC: Stop and exit   V: Visualizer" ui.white,
      DrawCmd.text 300 140 "Playing pattern:" ui.white,
      DrawCmd.text 428 140 (" " ++ toString fi.pattern) ui.red,
      DrawCmd.text 300 155 (if paused then "Paused" else "Playing") ui.white]

/-- The mutable state of the main loop: the two shared flags, the loop flag
`done`, the display selector, the current file path `modfile`, the xmp
context (`some p` = a context with module `p` loaded, `none` = freed), the
cached module info, and the local colour constants. -/
structure LoopState where
  paused : Bool
  stopped : Bool
  done : Bool
  show_visualizer : Bool
  modfile : String
  ctx : Option String
  mi : ModInfo
  ui : UIConsts
deriving DecidableEq, Repr

/-- Library calls the main loop performs, recorded in order. -/
inductive Action where
  | pauseAudio (pause_on : Bool)
  | endPlayer
  | releaseModule
  | freeContext
  | closeAudio
  | createContext
  | loadModule (path : String)
  | getModuleInfo
  | openAudio
  | startPlayer
  | printErr (msg : String)
deriving DecidableEq, Repr

/-- Success/failure outcomes of the library calls made when a dropped file is
loaded in the main loop (lines 202-232), plus the module info the new module
reports. -/
structure ReloadEnv where
  ctxOk : Bool
  loadOk : Bool
  audioOk : Bool
  playerOk : Bool
  newMi : ModInfo
deriving DecidableEq, Repr

/-- Result of handling one polled event: the new state, whether the handler
executed `break` (leaving the poll loop early), and the library calls made. -/
structure EventResult where
  state : LoopState
  brk : Bool
  acts : List Action
deriving Repr

/-- The teardown sequence at the start of the drop handler (lines 191-196):
`SDL_PauseAudio(1)`, `xmp_end_player`, `xmp_release_module`,
`xmp_free_context`, `SDL_CloseAudio`. -/
def teardownActs : List Action :=
  [Action.pauseAudio true, Action.endPlayer, Action.releaseModule,
   Action.freeContext, Action.closeAudio]

/-- The body of the event-polling loop (lines 176-237). -/
def handleEvent (env : ReloadEnv) (s : LoopState) (e : Event) : EventResult :=
  match e with
  | Event.quit =>
    ⟨{ s with done := true, stopped := true }, false, []⟩
  | Event.keydown SDLKey.space =>
    ⟨{ s with paused := !s.paused }, false, []⟩
  | Event.keydown SDLKey.escape =>
    ⟨{ s with stopped := true, done := true }, false, []⟩
  | Event.keydown SDLKey.vkey =>
    ⟨{ s with show_visualizer := !s.show_visualizer }, false, []⟩
  | Event.keydown SDLKey.otherKey =>
    ⟨s, false, []⟩
  | Event.otherEvent =>
    ⟨s, false, []⟩
  | Event.dropfile p =>
    let s1 := { s with stopped := true, modfile := p, ctx := none }
    if !env.ctxOk then
      ⟨{ s1 with done := true }, true,
       teardownActs ++ [Action.createContext,
         Action.printErr "Failed to create xmp context"]⟩
    else if !env.loadOk then
      ⟨{ s1 with done := true }, true,
       teardownActs ++ [Action.createContext, Action.loadModule p,
         Action.printErr ("Failed to load module: " ++ p), Action.freeContext]⟩
    else if !env.audioOk then
      ⟨{ s1 with done := true, mi := env.newMi }, true,
       teardownActs ++ [Action.createContext, Action.loadModule p,
         Action.getModuleInfo, Action.openAudio,
         Action.printErr "SDL_OpenAudio", Action.releaseModule,
         Action.freeContext]⟩
    else if !env.playerOk then
      ⟨{ s1 with done := true, mi := env.newMi }, true,
       teardownActs ++ [Action.createContext, Action.loadModule p,
         Action.getModuleInfo, Action.openAudio, Action.startPlayer,
         Action.printErr "xmp_start_player failed", Action.closeAudio,
         Action.releaseModule, Action.freeContext]⟩
    else
      ⟨{ s1 with ctx := some p, mi := env.newMi, paused := false, stopped := false },
       false,
       teardownActs ++ [Action.createContext, Action.loadModule p,
         Action.getModuleInfo, Action.openAudio, Action.startPlayer,
         Action.pauseAudio false]⟩

/-- `while (SDL_PollEvent(&event)) { … }`: handle the polled events in order,
stopping early when a handler executed `break`. -/
def processEvents (env : ReloadEnv) (s : LoopState) :
    List Event → LoopState × List Action
  | [] => (s, [])
  | e :: rest =>
    let r := handleEvent env s e
    if r.brk then (r.state, r.acts)
    else
      let q := processEvents env r.state rest
      (q.1, r.acts ++ q.2)

/-- Line 246-357: clear the screen, then draw exactly one of the two displays
selected by `show_visualizer`. -/
def renderFrame (s : LoopState) (fi : FrameInfo) : List DrawCmd :=
  DrawCmd.clear ::
    (if s.show_visualizer then visualizerCmds s.ui s.mi fi s.paused
     else infoPanelCmds s.ui s.mi fi s.paused)

/-- One iteration of the main loop (lines 175-361): poll and handle events,
query the frame info, set `done` when the module looped or `stopped` is set,
then draw a frame. -/
def loopBody (env : ReloadEnv) (evs : List Event) (fi : FrameInfo)
    (s : LoopState) : LoopState × List Action × List DrawCmd :=
  let r := processEvents env s evs
  let s1 :=
    if fi.loop_count > 0 || r.1.stopped then { r.1 with done := true } else r.1
  (s1, r.2, renderFrame s1 fi)

/-- `while (!done) { … }`: run iterations, each fed by its polled events and
frame info, until `done` is set. -/
def runLoop (env : ReloadEnv) :
    List (List Event × FrameInfo) → LoopState → LoopState
  | [], s => s
  | i :: rest, s =>
    if s.done then s else runLoop env rest (loopBody env i.1 i.2 s).1

/-- Result of the start-up wait loop (lines 93-115). -/
inductive StartupResult where
  | exitQuit
  | play (path : String)
  | hang
deriving DecidableEq, Repr

/-- The start-up wait loop (lines 93-115).  `modfile` holds the command-line
path (possibly empty).  The list is the successive successful returns of
`SDL_WaitEvent`; its end models `SDL_WaitEvent` returning 0, after which
line 114 (`if (modfile[0]) break;`) either leaves the loop with the
command-line path or repeats the outer loop forever. -/
def startupLoop (modfile : String) : List Event → StartupResult
  | [] => if modfile = "" then StartupResult.hang else StartupResult.play modfile
  | e :: rest =>
    match e with
    | Event.quit => StartupResult.exitQuit
    | Event.dropfile p => StartupResult.play p
    | _ => startupLoop modfile rest

/-- Success/failure outcomes of the initialisation and load steps of `main`. -/
structure InitOutcomes where
  sdlInitOk : Bool
  ttfInitOk : Bool
  fontOk : Bool
  windowOk : Bool
  ctxOk : Bool
  loadOk : Bool
  audioOk : Bool
  playerOk : Bool
deriving DecidableEq, Repr

/-- Whether every initialisation and load step succeeds. -/
def allInitOk (o : InitOutcomes) : Bool :=
  o.sdlInitOk && o.ttfInitOk && o.fontOk && o.windowOk &&
  o.ctxOk && o.loadOk && o.audioOk && o.playerOk

/-- Observable outcome of `main` up to the start of playback: an exit with a
status code and the `fprintf(stderr, …)` messages written, an infinite wait,
or reaching `SDL_PauseAudio(0)` with a module playing.  Error messages are
modelled by their static format-string prefix. -/
inductive MainResult where
  | exited (code : Nat) (errs : List String)
  | hang
  | playing (path : String)
deriving DecidableEq, Repr

/-- `main` from entry to `SDL_PauseAudio(0)` (lines 35-163): copy `argv[1]`
if present, run the four library initialisation steps (lines 42-71), the
start-up wait loop (lines 93-115), then context creation, module load,
audio open and player start (lines 118-161), each failure printing to
stderr and returning 1. -/
def mainStartup (o : InitOutcomes) (arg1 : Option String)
    (events : List Event) : MainResult :=
  let modfile := arg1.getD ""
  if !o.sdlInitOk then MainResult.exited 1 ["SDL_Init"]
  else if !o.ttfInitOk then MainResult.exited 1 ["TTF_Init"]
  else if !o.fontOk then MainResult.exited 1 ["TTF_OpenFont"]
  else if !o.windowOk then MainResult.exited 1 ["SDL_CreateWindow"]
  else
    match startupLoop modfile events with
    | StartupResult.exitQuit => MainResult.exited 0 []
    | StartupResult.hang => MainResult.hang
    | StartupResult.play path =>
      if !o.ctxOk then MainResult.exited 1 ["Failed to create xmp context"]
      else if !o.loadOk then
        MainResult.exited 1 ["Failed to load module: " ++ path]
      else if !o.audioOk then MainResult.exited 1 ["SDL_OpenAudio"]
      else if !o.playerOk then MainResult.exited 1 ["xmp_start_player failed"]
      else MainResult.playing path

/-- Events relevant to the start-up wait loop: `SDL_QUIT` and `SDL_DROPFILE`. -/
def isStartupRelevant : Event → Bool
  | Event.quit => true
  | Event.dropfile _ => true
  | _ => false

/-- The first quit or drop event delivered, if any. -/
def firstRelevant (evs : List Event) : Option Event :=
  evs.find? isStartupRelevant

/-- C1: on every invocation of `fill_audio`, if `stopped` is set the whole
buffer of `len` bytes is zeroed; otherwise if `paused` is not set the buffer
is filled by `xmp_play_buffer` on the context passed as userdata; otherwise
(paused, not stopped) the buffer is zeroed.  The first conjunct holds
whatever `paused` is, so `stopped` takes precedence over `paused`. -/
theorem fill_audio_spec (flags : SharedFlags) (udata : String) (len : Nat) :
    (flags.stopped = true →
      fill_audio flags udata len = (AudioOut.silence len, flags)) ∧
    (flags.stopped = false → flags.paused = false →
      fill_audio flags udata len = (AudioOut.decoded udata len, flags)) ∧
    (flags.stopped = false → flags.paused = true →
      fill_audio flags udata len = (AudioOut.silence len, flags)) := by
  obtain ⟨p, st⟩ := flags
  cases p <;> cases st <;> simp [fill_audio]

/-- C1 witness: a paused, non-stopped callback invocation emits silence. -/
theorem fill_audio_spec_w :
    fill_audio ⟨true, false⟩ "ctx" 16 = (AudioOut.silence 16, ⟨true, false⟩) :=
  (fill_audio_spec ⟨true, false⟩ "ctx" 16).2.2 rfl rfl

/-- C6: a SPACE keydown negates `paused` and a V keydown negates
`show_visualizer`, so two consecutive SPACE (resp. V) keydowns restore
`paused` (resp. `show_visualizer`) to its original value, from any state. -/
theorem toggle_involution (env : ReloadEnv) (s : LoopState) :
    ((handleEvent env s (Event.keydown SDLKey.space)).state.paused = !s.paused) ∧
    ((handleEvent env ((handleEvent env s (Event.keydown SDLKey.space)).state)
        (Event.keydown SDLKey.space)).state.paused = s.paused) ∧
    ((handleEvent env s (Event.keydown SDLKey.vkey)).state.show_visualizer =
      !s.show_visualizer) ∧
    ((handleEvent env ((handleEvent env s (Event.keydown SDLKey.vkey)).state)
        (Event.keydown SDLKey.vkey)).state.show_visualizer =
      s.show_visualizer) := by
  simp [handleEvent]

/-- C5: event handling touches only the state the spec names.  The colour
constants are untouched by every event; quit sets `stopped` and `done` and
nothing else; SPACE toggles `paused` and nothing else; ESCAPE sets `stopped`
and `done` and nothing else; V toggles `show_visualizer` and nothing else;
other keys and other events change nothing; a file drop leaves
`show_visualizer` and the colour constants unchanged (it replaces the file
path, the playback context and its module info, and writes the
`paused`/`stopped`/`done` flags, all named by the spec). -/
theorem event_frame (env : ReloadEnv) (s : LoopState) (e : Event) :
    ((handleEvent env s e).state.ui = s.ui) ∧
    (e = Event.quit → handleEvent env s e =
      ⟨{ s with stopped := true, done := true }, false, []⟩) ∧
    (e = Event.keydown SDLKey.space → handleEvent env s e =
      ⟨{ s with paused := !s.paused }, false, []⟩) ∧
    (e = Event.keydown SDLKey.escape → handleEvent env s e =
      ⟨{ s with stopped := true, done := true }, false, []⟩) ∧
    (e = Event.keydown SDLKey.vkey → handleEvent env s e =
      ⟨{ s with show_visualizer := !s.show_visualizer }, false, []⟩) ∧
    (e = Event.keydown SDLKey.otherKey → handleEvent env s e = ⟨s, false, []⟩) ∧
    (e = Event.otherEvent → handleEvent env s e = ⟨s, false, []⟩) ∧
    (∀ p, e = Event.dropfile p →
      (handleEvent env s e).state.show_visualizer = s.show_visualizer ∧
      (handleEvent env s e).state.modfile = p) := by
  cases e with
  | quit => simp [handleEvent]
  | keydown k => cases k <;> simp [handleEvent]
  | dropfile p =>
    refine ⟨?_, by simp, by simp, by simp, by simp, by simp, by simp, ?_⟩
    · simp only [handleEvent]
      split <;> [rfl; split <;> [rfl; split <;> [rfl; split <;> rfl]]]
    · intro q hq
      cases hq
      simp only [handleEvent]
      split <;> [exact ⟨rfl, rfl⟩;
        split <;> [exact ⟨rfl, rfl⟩;
          split <;> [exact ⟨rfl, rfl⟩; split <;> exact ⟨rfl, rfl⟩]]]
  | otherEvent => simp [handleEvent]

/-- C5 witness: a SPACE keydown in a concrete state toggles exactly
`paused`. -/
theorem event_frame_w :
    handleEvent ⟨true, true, true, true, ⟨"s", "t", 4, 1, 1, 1⟩⟩
        ⟨false, false, false, false, "m", none, ⟨"s", "t", 4, 1, 1, 1⟩, initUI⟩
        (Event.keydown SDLKey.space) =
      ⟨⟨true, false, false, false, "m", none, ⟨"s", "t", 4, 1, 1, 1⟩, initUI⟩,
        false, []⟩ :=
  (event_frame ⟨true, true, true, true, ⟨"s", "t", 4, 1, 1, 1⟩⟩
    ⟨false, false, false, false, "m", none, ⟨"s", "t", 4, 1, 1, 1⟩, initUI⟩
    (Event.keydown SDLKey.space)).2.2.1 rfl

/-- C7: the audio-callback/main-loop coordination is the two-flag handoff.
The callback never writes the flags (its resulting flag state is its input
flag state, for every input), its output is a function of the flags, the
userdata context and the length only (it takes nothing else), and one main
loop iteration changes `paused`/`stopped` exactly as its event processing
does - the frame-info query, the loop-end check and the drawing leave both
flags as event handling left them, and an iteration with no events leaves
both unchanged. -/
theorem shared_flag_handoff :
    (∀ (flags : SharedFlags) (udata : String) (len : Nat),
      (fill_audio flags udata len).2 = flags) ∧
    (∀ (env : ReloadEnv) (evs : List Event) (fi : FrameInfo) (s : LoopState),
      (loopBody env evs fi s).1.paused = (processEvents env s evs).1.paused ∧
      (loopBody env evs fi s).1.stopped = (processEvents env s evs).1.stopped) ∧
    (∀ (env : ReloadEnv) (fi : FrameInfo) (s : LoopState),
      (loopBody env [] fi s).1.paused = s.paused ∧
      (loopBody env [] fi s).1.stopped = s.stopped) := by
  refine ⟨?_, ?_, ?_⟩
  · intro flags udata len
    simp only [fill_audio]
    split <;> [rfl; split <;> rfl]
  · intro env evs fi s
    simp only [loopBody]
    constructor <;> (split <;> rfl)
  · intro env fi s
    simp only [loopBody, processEvents]
    constructor <;> (split <;> rfl)

/-- Every run of the start-up phase ends in an error exit with status 1 and
one message, a quit exit with status 0, an endless wait, or playback with
every initialisation step succeeded. -/
lemma mainStartup_cases (o : InitOutcomes) (arg1 : Option String)
    (events : List Event) :
    (∃ msg, mainStartup o arg1 events = MainResult.exited 1 [msg]) ∨
    mainStartup o arg1 events = MainResult.exited 0 [] ∨
    mainStartup o arg1 events = MainResult.hang ∨
    (∃ p, mainStartup o arg1 events = MainResult.playing p ∧
      allInitOk o = true) := by
  simp only [mainStartup]
  repeat' split
  all_goals
    first
      | exact Or.inl ⟨_, rfl⟩
      | exact Or.inr (Or.inl rfl)
      | exact Or.inr (Or.inr (Or.inl rfl))
      | (refine Or.inr (Or.inr (Or.inr ⟨_, rfl, ?_⟩)); simp_all [allInitOk])

/-- C2: every failing initialisation or load step (SDL init, TTF init, font
open, window creation, xmp context creation, module load, audio-device open,
player start) makes the program print an error message to stderr and exit
with status 1; playback is reached only when every step succeeded, and every
nonzero exit has status 1 and a nonempty error output, so there is no retry
or recovery path. -/
theorem init_failures_exit (o : InitOutcomes) (arg1 : Option String)
    (events : List Event) :
    (o.sdlInitOk = false →
      mainStartup o arg1 events = MainResult.exited 1 ["SDL_Init"]) ∧
    (o.sdlInitOk = true → o.ttfInitOk = false →
      mainStartup o arg1 events = MainResult.exited 1 ["TTF_Init"]) ∧
    (o.sdlInitOk = true → o.ttfInitOk = true → o.fontOk = false →
      mainStartup o arg1 events = MainResult.exited 1 ["TTF_OpenFont"]) ∧
    (o.sdlInitOk = true → o.ttfInitOk = true → o.fontOk = true →
      o.windowOk = false →
      mainStartup o arg1 events = MainResult.exited 1 ["SDL_CreateWindow"]) ∧
    (∀ p, o.sdlInitOk = true → o.ttfInitOk = true → o.fontOk = true →
      o.windowOk = true →
      startupLoop (arg1.getD "") events = StartupResult.play p →
      ((o.ctxOk = false →
          mainStartup o arg1 events =
            MainResult.exited 1 ["Failed to create xmp context"]) ∧
       (o.ctxOk = true → o.loadOk = false →
          mainStartup o arg1 events =
            MainResult.exited 1 ["Failed to load module: " ++ p]) ∧
       (o.ctxOk = true → o.loadOk = true → o.audioOk = false →
          mainStartup o arg1 events = MainResult.exited 1 ["SDL_OpenAudio"]) ∧
       (o.ctxOk = true → o.loadOk = true → o.audioOk = true →
          o.playerOk = false →
          mainStartup o arg1 events =
            MainResult.exited 1 ["xmp_start_player failed"]))) ∧
    (∀ p, mainStartup o arg1 events = MainResult.playing p →
      allInitOk o = true) ∧
    (∀ code errs, mainStartup o arg1 events = MainResult.exited code errs →
      code ≠ 0 → code = 1 ∧ errs ≠ []) := by
  refine ⟨?_, ?_, ?_, ?_, ?_, ?_, ?_⟩
  · intro h1
    simp [mainStartup, h1]
  · intro h1 h2
    simp [mainStartup, h1, h2]
  · intro h1 h2 h3
    simp [mainStartup, h1, h2, h3]
  · intro h1 h2 h3 h4
    simp [mainStartup, h1, h2, h3, h4]
  · intro p h1 h2 h3 h4 hp
    refine ⟨?_, ?_, ?_, ?_⟩ <;> intros <;> simp [mainStartup, hp, *]
  · intro p h
    rcases mainStartup_cases o arg1 events with ⟨msg, he⟩ | he | he | ⟨q, he, hall⟩
    · rw [he] at h; exact absurd h (by simp)
    · rw [he] at h; exact absurd h (by simp)
    · rw [he] at h; exact absurd h (by simp)
    · exact hall
  · intro code errs h hc
    rcases mainStartup_cases o arg1 events with ⟨msg, he⟩ | he | he | ⟨q, he, hall⟩
    · have hx := he.symm.trans h
      simp only [MainResult.exited.injEq] at hx
      refine ⟨hx.1.symm, ?_⟩
      rw [← hx.2]
      simp
    · have hx := he.symm.trans h
      simp only [MainResult.exited.injEq] at hx
      exact absurd hx.1.symm hc
    · rw [he] at h; exact absurd h.symm (by simp)
    · rw [he] at h; exact absurd h.symm (by simp)

/-- C2 witness: with every step but the player start succeeding and a file
dropped at start-up, the program prints the player-start error and exits
with status 1. -/
theorem init_failures_exit_w :
    mainStartup ⟨true, true, true, true, true, true, true, false⟩
        (some "x.mod") [Event.dropfile "y.mod"] =
      MainResult.exited 1 ["xmp_start_player failed"] :=
  ((init_failures_exit ⟨true, true, true, true, true, true, true, false⟩
      (some "x.mod") [Event.dropfile "y.mod"]).2.2.2.2.1 "y.mod"
    rfl rfl rfl rfl rfl).2.2.2 rfl rfl rfl rfl

/-- C3: on a file drop in the main loop, the handler first performs the
teardown sequence pause-audio, end-player, release-module, free-context,
close-audio, and replaces the current file path with the dropped path; if
every reload step succeeds the new module is loaded and started with
`paused` and `stopped` reset to 0 and nothing else changed; if a reload step
fails an error is printed, the handler leaves the poll loop (`break`) with
`done` set, and a loop with `done` set runs no further iteration. -/
theorem dropfile_reload (env : ReloadEnv) (s : LoopState) (p : String) :
    ((handleEvent env s (Event.dropfile p)).acts.take 5 = teardownActs) ∧
    ((handleEvent env s (Event.dropfile p)).state.modfile = p) ∧
    (env.ctxOk = true → env.loadOk = true → env.audioOk = true →
      env.playerOk = true →
      (handleEvent env s (Event.dropfile p)).state =
        { s with paused := false, stopped := false, modfile := p,
                 ctx := some p, mi := env.newMi } ∧
      (handleEvent env s (Event.dropfile p)).acts =
        teardownActs ++ [Action.createContext, Action.loadModule p,
          Action.getModuleInfo, Action.openAudio, Action.startPlayer,
          Action.pauseAudio false]) ∧
    ((env.ctxOk && env.loadOk && env.audioOk && env.playerOk) = false →
      (handleEvent env s (Event.dropfile p)).state.done = true ∧
      (handleEvent env s (Event.dropfile p)).brk = true ∧
      ∃ m, Action.printErr m ∈ (handleEvent env s (Event.dropfile p)).acts) ∧
    (∀ (inps : List (List Event × FrameInfo)) (s' : LoopState),
      s'.done = true → runLoop env inps s' = s') := by
  obtain ⟨c1, c2, c3, c4, nmi⟩ := env
  refine ⟨?_, ?_, ?_, ?_, ?_⟩
  · cases c1 <;> cases c2 <;> cases c3 <;> cases c4 <;> rfl
  · cases c1 <;> cases c2 <;> cases c3 <;> cases c4 <;> rfl
  · intro h1 h2 h3 h4
    cases h1; cases h2; cases h3; cases h4
    exact ⟨rfl, rfl⟩
  · intro h
    cases c1
    · exact ⟨rfl, rfl, "Failed to create xmp context",
        by simp [handleEvent, teardownActs]⟩
    · cases c2
      · exact ⟨rfl, rfl, "Failed to load module: " ++ p,
          by simp [handleEvent, teardownActs]⟩
      · cases c3
        · exact ⟨rfl, rfl, "SDL_OpenAudio",
            by simp [handleEvent, teardownActs]⟩
        · cases c4
          · exact ⟨rfl, rfl, "xmp_start_player failed",
              by simp [handleEvent, teardownActs]⟩
          · simp at h
  · intro inps s' h
    cases inps with
    | nil => rfl
    | cons i rest => simp [runLoop, h]

/-- C3 witness: a successful drop of a concrete file resets the flags and
installs the new path. -/
theorem dropfile_reload_w :
    (handleEvent ⟨true, true, true, true, ⟨"n", "XM", 8, 2, 3, 4⟩⟩
        ⟨true, false, false, true, "old", some "old", ⟨"s", "t", 4, 1, 1, 1⟩,
          initUI⟩
        (Event.dropfile "new.mod")).state =
      ⟨false, false, false, true, "new.mod", some "new.mod",
        ⟨"n", "XM", 8, 2, 3, 4⟩, initUI⟩ :=
  ((dropfile_reload ⟨true, true, true, true, ⟨"n", "XM", 8, 2, 3, 4⟩⟩
      ⟨true, false, false, true, "old", some "old", ⟨"s", "t", 4, 1, 1, 1⟩,
        initUI⟩
      "new.mod").2.2.1 rfl rfl rfl rfl).1

/-- C4: each frame draws exactly one of the two displays, selected by
`show_visualizer`: with the flag clear the frame is the clear followed by
the song-information panel, with the flag set it is the clear followed by
the volume-bar visualizer, and on identical inputs the two displays are
never the same drawing, so no frame shows both. -/
theorem frame_display (s : LoopState) (fi : FrameInfo) :
    (s.show_visualizer = false →
      renderFrame s fi = DrawCmd.clear :: infoPanelCmds s.ui s.mi fi s.paused) ∧
    (s.show_visualizer = true →
      renderFrame s fi = DrawCmd.clear :: visualizerCmds s.ui s.mi fi s.paused) ∧
    infoPanelCmds s.ui s.mi fi s.paused ≠ visualizerCmds s.ui s.mi fi s.paused := by
  refine ⟨fun h => by simp [renderFrame, h], fun h => by simp [renderFrame, h], ?_⟩
  intro h
  have hh := congrArg List.head? h
  rw [show (infoPanelCmds s.ui s.mi fi s.paused).head? =
      some (DrawCmd.text 10 10 "Title:" s.ui.white) from rfl] at hh
  cases hn : s.mi.chn.toNat with
  | zero =>
    rw [visualizerCmds, hn] at hh
    simp at hh
  | succ n =>
    rw [visualizerCmds, hn, List.range_succ_eq_map] at hh
    simp [visualizerBar] at hh

/-- C4 witness: with `show_visualizer` clear in a concrete state, the frame
is the info panel. -/
theorem frame_display_w :
    renderFrame
        ⟨false, false, false, false, "m", some "m", ⟨"s", "t", 2, 1, 1, 1⟩,
          initUI⟩
        ⟨0, 0, fun _ => ⟨0, 0, 0⟩⟩ =
      DrawCmd.clear ::
        infoPanelCmds initUI ⟨"s", "t", 2, 1, 1, 1⟩
          ⟨0, 0, fun _ => ⟨0, 0, 0⟩⟩ false :=
  (frame_display
    ⟨false, false, false, false, "m", some "m", ⟨"s", "t", 2, 1, 1, 1⟩, initUI⟩
    ⟨0, 0, fun _ => ⟨0, 0, 0⟩⟩).1 rfl

/-- C8 counterexample: with a command-line path supplied and `SDL_WaitEvent`
failing at once (modelled by the exhausted event list) and every library
step succeeding, the program loads and plays the command-line file although
no SDL_DROPFILE event was ever received. -/
theorem startup_cmdline_counterexample :
    mainStartup ⟨true, true, true, true, true, true, true, true⟩
        (some "song.mod") [] = MainResult.playing "song.mod" := rfl

/-- C8 amended: as long as `SDL_WaitEvent` keeps succeeding, the start-up
loop leaves the waiting state only on the first quit or drop event: a quit
ends the wait (and the program exits with status 0 when initialisation
succeeded), a drop starts playback of the dropped path, overwriting the
command-line path; only when `SDL_WaitEvent` fails (the event list ends)
does the loop fall through to the `modfile[0]` check, playing the
command-line file if one was given and waiting again forever otherwise. -/
theorem startup_waits_for_event (modfile : String) (events : List Event) :
    (firstRelevant events = some Event.quit →
      startupLoop modfile events = StartupResult.exitQuit) ∧
    (∀ p, firstRelevant events = some (Event.dropfile p) →
      startupLoop modfile events = StartupResult.play p) ∧
    (firstRelevant events = none →
      startupLoop modfile events =
        (if modfile = "" then StartupResult.hang
         else StartupResult.play modfile)) ∧
    (∀ o : InitOutcomes, o.sdlInitOk = true → o.ttfInitOk = true →
      o.fontOk = true → o.windowOk = true →
      startupLoop modfile events = StartupResult.exitQuit →
      mainStartup o (some modfile) events = MainResult.exited 0 []) := by
  have key : (firstRelevant events = some Event.quit →
      startupLoop modfile events = StartupResult.exitQuit) ∧
      (∀ p, firstRelevant events = some (Event.dropfile p) →
        startupLoop modfile events = StartupResult.play p) ∧
      (firstRelevant events = none →
        startupLoop modfile events =
          (if modfile = "" then StartupResult.hang
           else StartupResult.play modfile)) := by
    induction events with
    | nil => simp [firstRelevant, startupLoop]
    | cons e rest ih =>
      cases e with
      | quit => simp [firstRelevant, List.find?, isStartupRelevant, startupLoop]
      | keydown k =>
        simpa [firstRelevant, List.find?, isStartupRelevant, startupLoop]
          using ih
      | dropfile q =>
        simp [firstRelevant, List.find?, isStartupRelevant, startupLoop]
      | otherEvent =>
        simpa [firstRelevant, List.find?, isStartupRelevant, startupLoop]
          using ih
  refine ⟨key.1, key.2.1, key.2.2, ?_⟩
  intro o h1 h2 h3 h4 hsl
  simp [mainStartup, h1, h2, h3, h4, hsl]

/-- C8 amended witness: a keydown is ignored by the wait loop and the
following quit ends it. -/
theorem startup_waits_for_event_w :
    startupLoop "x.mod" [Event.keydown SDLKey.space, Event.quit] =
      StartupResult.exitQuit :=
  (startup_waits_for_event "x.mod"
    [Event.keydown SDLKey.space, Event.quit]).1 rfl

/-- C9 counterexample: the note-name table has 98 entries, not 97, so for
`note = 97` the code shows `note_names[97]` ("C-8") and not the "---"
placeholder the claim requires for every `note >= 97`. -/
theorem note_table_bound_counterexample : noteStrOf 97 ≠ "---" := by decide

/-- C9 amended: the per-channel note display never indexes the table out of
bounds: the note name shown is `note_names[note]` exactly when
`0 < note < 98`, the table's length, and "---" otherwise (`note <= 0` or
`note >= 98`); the info panel shows at most `min(chn, 8) <= 8` channels. -/
theorem note_display_bounds (note : Int) (chn : Int) :
    (0 < note → note < 98 →
      note.toNat < note_names.length ∧
      noteStrOf note = note_names.getD note.toNat "---") ∧
    (note ≤ 0 ∨ 98 ≤ note → noteStrOf note = "---") ∧
    note_names.length = 98 ∧
    maxChannelsInfo chn = min chn 8 ∧
    maxChannelsInfo chn ≤ 8 := by
  have hlen : note_names.length = 98 := rfl
  refine ⟨?_, ?_, hlen, ?_, ?_⟩
  · intro h1 h2
    refine ⟨by omega, ?_⟩
    rw [noteStrOf, if_pos]
    exact ⟨h1, by rw [hlen]; exact_mod_cast h2⟩
  · intro h
    rw [noteStrOf, if_neg]
    rw [hlen]
    push_cast
    omega
  · rw [maxChannelsInfo, min_def]
    split <;> split <;> omega
  · rw [maxChannelsInfo]
    split <;> omega

/-- C9 amended witness: note 5 is shown as its table entry ("E-0") and
note 98 as the placeholder; a 10-channel module shows 8 lines. -/
theorem note_display_bounds_w :
    ((5 : Int).toNat < note_names.length ∧
      noteStrOf 5 = note_names.getD (5 : Int).toNat "---") ∧
    noteStrOf 98 = "---" ∧
    maxChannelsInfo 10 = min 10 8 :=
  ⟨(note_display_bounds 5 10).1 (by norm_num) (by norm_num),
   (note_display_bounds 98 10).2.1 (by norm_num),
   (note_display_bounds 5 10).2.2.2.1⟩

/-- C10: for a channel volume `v` with `0 <= v <= 64` the bar height
`(v * 110) / 64` lies in `[0, 110]`, so the bar rectangle, whose top is
`base_y + (110 - bar_height)` and whose height is `bar_height`, lies within
the vertical band from `base_y` to `base_y + 110`; and for a channel count
of at least 1 (the C division being undefined for 0) the clamped bar width
is at least 2. -/
theorem visualizer_geometry (vol chn : Int) :
    (0 ≤ vol → vol ≤ 64 →
      0 ≤ barHeight vol ∧ barHeight vol ≤ bar_max_height ∧
      base_y ≤ base_y + (bar_max_height - barHeight vol) ∧
      base_y + (bar_max_height - barHeight vol) + barHeight vol =
        base_y + bar_max_height) ∧
    (1 ≤ chn → 2 ≤ barWidth chn) := by
  constructor
  · intro h0 h64
    have hnn : 0 ≤ vol * bar_max_height := by
      have : (0 : Int) ≤ 110 := by norm_num
      simpa [bar_max_height] using mul_nonneg h0 this
    have hdiv : Int.tdiv (vol * bar_max_height) 64 = vol * bar_max_height / 64 :=
      Int.tdiv_eq_ediv hnn (by norm_num)
    simp only [barHeight, bar_max_height, base_y] at *
    rw [hdiv]
    omega
  · intro h1
    simp only [barWidth]
    generalize Int.tdiv (visualizer_width - (chn - 1) * spacing) chn = w
    split <;> omega

/-- C10 witness: at full volume the bar is exactly 110 high and sits at the
top of the band, and a 4-channel module gets bars at least 2 wide. -/
theorem visualizer_geometry_w :
    (0 ≤ barHeight 64 ∧ barHeight 64 ≤ bar_max_height ∧
      base_y ≤ base_y + (bar_max_height - barHeight 64) ∧
      base_y + (bar_max_height - barHeight 64) + barHeight 64 =
        base_y + bar_max_height) ∧
    2 ≤ barWidth 4 :=
  ⟨(visualizer_geometry 64 4).1 (by norm_num) (by norm_num),
   (visualizer_geometry 64 4).2 (by norm_num)⟩

end PlayMod
